import Mathlib

set_option linter.unusedVariables false

/-!
Shallow embedding of the combat and state-machine core of the Shroombound
action platformer (TypeScript source, Phaser engine).

Modelling conventions
* Pure methods become Lean functions on explicit state records; every scene
  or entity field that the modelled methods read or write becomes a structure
  field with the source's initial value as its default.
* Visual side effects (tweens, particles, tint, camera, text) are omitted:
  nothing in the modelled logic reads them back.
* Event emissions that carry observable data (`player-damaged`, phase
  transitions, `startBossDeath` invocations, damage dealt to the player) are
  recorded in explicit ghost logs so theorems can talk about them.
* Real-valued quantities (positions, timers, `Math.random()` draws) are
  rationals; health values and damage amounts are integers, as every damage
  amount in the program is an integer literal.  The boss's phase-threshold
  comparison `health / maxHealth <= 0.33` (resp. `0.66`) is embedded as the
  exact rational test `100 * health <= 33 * maxHealth`; for the program's
  integer health values and `maxHealth = 20` the IEEE-double comparison of
  the source agrees with the exact rational one, because `k / 20` is never
  within `0.004` of `0.33` or `0.66` for any integer `k`.
-/

namespace Shroombound

/-! ### Generic finite state machine (src/components/StateMachine.ts)

The JavaScript `Map` is an association list keyed by the state name: a later
`set` with an existing name replaces that entry in place, otherwise the entry
is appended.  The source compares `this.currentState === newState` by object
identity; each `addState` call therefore tags its state object with a fresh
numeric id, and `===` becomes id equality. -/

structure State (T : Type) where
  name : String
  onEnter : Option (T → T) := none
  onUpdate : Option (T → Nat → Nat → T) := none
  onExit : Option (T → T) := none

structure StateMachine (T : Type) where
  entity : T
  nextId : Nat := 0
  states : List (Nat × State T) := []
  currentState : Option (Nat × State T) := none
  previousState : Option (Nat × State T) := none

/-- Replacement-or-append semantics of `Map.set` keyed by the state name. -/
def mapSet {T : Type} (entry : Nat × State T) : List (Nat × State T) → List (Nat × State T)
  | [] => [entry]
  | e :: rest =>
    if e.2.name = entry.2.name then entry :: rest else e :: mapSet entry rest

/-- Lookup semantics of `Map.get` keyed by the state name. -/
def mapGet {T : Type} (name : String) (l : List (Nat × State T)) : Option (Nat × State T) :=
  l.find? (fun e => e.2.name == name)

def StateMachine.addState {T : Type} (m : StateMachine T) (st : State T) : StateMachine T :=
  { m with states := mapSet (m.nextId, st) m.states, nextId := m.nextId + 1 }

/-- Run an optional hook (`onEnter` / `onExit`) on the owned entity. -/
def runHook {T : Type} (h : Option (T → T)) (e : T) : T :=
  match h with
  | some f => f e
  | none => e

/-- The `setState(name)` method: warn-and-return on unknown names, suppress
re-entry into the current state (object identity test), otherwise run the old
state's `onExit`, record it as previous, switch, and run the new `onEnter`. -/
def StateMachine.setState {T : Type} (m : StateMachine T) (name : String) : StateMachine T :=
  match mapGet name m.states with
  | none => m
  | some (id, newState) =>
    match m.currentState with
    | some (cid, cur) =>
      if cid = id then m
      else
        { m with
          entity := runHook newState.onEnter (runHook cur.onExit m.entity)
          previousState := some (cid, cur)
          currentState := some (id, newState) }
    | none =>
      { m with
        entity := runHook newState.onEnter m.entity
        previousState := none
        currentState := some (id, newState) }

/-- The `update(time, delta)` method invokes only the current state's
`onUpdate`. -/
def StateMachine.update {T : Type} (m : StateMachine T) (time delta : Nat) : StateMachine T :=
  match m.currentState with
  | some (_, st) =>
    match st.onUpdate with
    | some f => { m with entity := f m.entity time delta }
    | none => m
  | none => m

def StateMachine.getCurrentState {T : Type} (m : StateMachine T) : Option String :=
  m.currentState.map (fun e => e.2.name)

def StateMachine.isInState {T : Type} (m : StateMachine T) (name : String) : Bool :=
  m.getCurrentState == some name

/-- Invariant maintained by machines built through `addState` chains: state
names and identity tags are each registered at most once, and the current
state object (when set) is a registered entry. -/
def StateMachine.wellFormed {T : Type} (m : StateMachine T) : Prop :=
  (m.states.map (fun e => e.2.name)).Nodup ∧
  (m.states.map Prod.fst).Nodup ∧
  ∀ c, m.currentState = some c → c ∈ m.states

/-! ### Base enemy damage contract (src/entities/Enemy.ts)

`Crawler` inherits this `takeDamage` unchanged; `Flyer` overrides it (below)
by calling it through `super`. -/

structure Enemy where
  health : Int
  maxHealth : Int
  damage : Int
  isHurt : Bool := false
  isAlive : Bool := true
  hurtTimer : ℚ := 0
  hurtDuration : ℚ := 200
  knockbackVelocity : ℚ := 300
  x : ℚ
  vx : ℚ := 0
  vy : ℚ := 0
  dieCalls : Nat := 0
deriving DecidableEq

/-- The `die()` method: marks the enemy dead; the fade-out tween then emits
one `enemy-defeated` and destroys the sprite (recorded via the ghost counter
`dieCalls`). -/
def Enemy.die (e : Enemy) : Enemy :=
  { e with isAlive := false, dieCalls := e.dieCalls + 1 }

/-- The shared `takeDamage(amount, sourceX)`: no-op while hurt or dead,
otherwise decrement health, enter the hurt window, knock back away from the
source, and die when health drops to 0 or below. -/
def Enemy.takeDamage (amount : Int) (sourceX : ℚ) (e : Enemy) : Enemy :=
  if e.isHurt ∨ ¬e.isAlive then e
  else
    let dir : ℚ := if e.x < sourceX then -1 else 1
    let e2 :=
      { e with
        health := e.health - amount
        isHurt := true
        hurtTimer := e.hurtDuration
        vx := e.knockbackVelocity * dir
        vy := -100 }
    if e2.health ≤ 0 then e2.die else e2

/-- The `updateHurt(delta)` countdown clearing the hurt flag. -/
def Enemy.updateHurt (delta : ℚ) (e : Enemy) : Enemy :=
  if e.isHurt then
    let t := e.hurtTimer - delta
    if t ≤ 0 then { e with hurtTimer := t, isHurt := false }
    else { e with hurtTimer := t }
  else e

/-! ### Flyer (src/unnamed/part_002)

`FlyerState` is a numeric TypeScript enum (`HOVER = 0 .. RETREAT = 3`).  The
source's `takeDamage` override writes `this.state` — the `state` property
inherited from Phaser's `GameObject`, initialised to `0` — while the `update`
switch dispatches on the separate field `this.currentState`.  Both fields are
embedded so the divergence is visible. -/

inductive FlyerState where
  | HOVER
  | TRACK
  | SWOOP
  | RETREAT
deriving DecidableEq, Repr

/-- Numeric value of the TypeScript enum member. -/
def FlyerState.code : FlyerState → Nat
  | .HOVER => 0
  | .TRACK => 1
  | .SWOOP => 2
  | .RETREAT => 3

structure Flyer where
  base : Enemy
  currentState : FlyerState := .HOVER
  gameObjState : Nat := 0
  retreatTimer : ℚ := 0
  retreatDuration : ℚ := 1500
  trackTimer : ℚ := 0
  swoopTarget : Option (ℚ × ℚ) := none
  hoverOffset : ℚ := 0
deriving DecidableEq

/-- The `Flyer.takeDamage` override: delegates to `super.takeDamage`, then —
whenever still alive — assigns `FlyerState.RETREAT` to the inherited Phaser
`state` property (not to `currentState`) and resets the retreat timer. -/
def Flyer.takeDamage (amount : Int) (sourceX : ℚ) (f : Flyer) : Flyer :=
  let b := Enemy.takeDamage amount sourceX f.base
  let f2 := { f with base := b }
  if b.isAlive then
    { f2 with gameObjState := FlyerState.RETREAT.code, retreatTimer := f2.retreatDuration }
  else f2

/-- Dispatch skeleton of `Flyer.update`: returns which state's behaviour
branch the tick executes (`none` when the early returns for dead / hurt fire)
together with the state after the hurt countdown.  The behaviour bodies
themselves (sinusoidal hover, normalised dive vectors) act only on velocities
and are not needed by the claims. -/
def Flyer.updateBranch (delta : ℚ) (f : Flyer) : Option FlyerState × Flyer :=
  if ¬f.base.isAlive then (none, f)
  else
    let f2 := { f with base := f.base.updateHurt delta }
    if f2.base.isHurt then (none, f2)
    else (some f2.currentState, f2)

/-! ### Player health system (src/entities/Player.ts)

The `player-damaged(health, maxHealth)` emissions are recorded in the ghost
log `damagedEvents`, `player-died` emissions in `diedEvents`. -/

structure Player where
  health : Int
  maxHealth : Int := 5
  invincible : Bool := false
  x : ℚ
  y : ℚ
  spawnX : ℚ
  spawnY : ℚ
  vx : ℚ := 0
  vy : ℚ := 0
  damagedEvents : List (Int × Int) := []
  diedEvents : Nat := 0
deriving DecidableEq

/-- The `respawn()` method: reset to the spawn point, zero velocity, brief
invincibility (cleared by a scheduled call, see `clearInvincibility`). -/
def Player.respawn (p : Player) : Player :=
  { p with x := p.spawnX, y := p.spawnY, vx := 0, vy := 0, invincible := true }

/-- The `die()` method: emit `player-died`, reset health to `maxHealth`,
respawn, and emit a `player-damaged` carrying the reset health. -/
def Player.die (p : Player) : Player :=
  let p1 := { p with diedEvents := p.diedEvents + 1, health := p.maxHealth }
  let p2 := p1.respawn
  { p2 with damagedEvents := p2.damagedEvents ++ [(p2.health, p2.maxHealth)] }

/-- The `takeDamage(amount, sourceX)` contract: no-op while invincible;
otherwise decrement health, become invincible, knock back away from the
source, emit `player-damaged` with the decremented health, then run the death
check (`health <= 0`). -/
def Player.takeDamage (amount : Int) (sourceX : ℚ) (p : Player) : Player :=
  if p.invincible then p
  else
    let kb : ℚ := if p.x < sourceX then -1 else 1
    let h := p.health - amount
    let p2 :=
      { p with
        health := h
        invincible := true
        vx := 200 * kb
        vy := -150
        damagedEvents := p.damagedEvents ++ [(h, p.maxHealth)] }
    if h ≤ 0 then p2.die else p2

/-- The `fallDeath()` method (death-pit handler): decrement health by 1 with
no invincibility guard, emit `player-damaged`, then die or respawn. -/
def Player.fallDeath (p : Player) : Player :=
  let h := p.health - 1
  let p2 := { p with health := h, damagedEvents := p.damagedEvents ++ [(h, p.maxHealth)] }
  if h ≤ 0 then p2.die else p2.respawn

/-- Body of the `delayedCall(1000, ...)` scheduled by `takeDamage` (and the
`delayedCall(500, ...)` scheduled by `respawn`) that ends the invincibility
window. -/
def Player.clearInvincibility (p : Player) : Player :=
  { p with invincible := false }

/-! ### Boss encounter controller (src/scenes/BossScene.ts)

Scene fields that the combat logic reads or writes become structure fields
with the constructor's initial values.  The geometric overlap queries
(`Phaser.Geom.Rectangle.Overlaps` against the player's body) are supplied as
boolean inputs, as the physics collaborator owns the rectangles.  Ghost logs:
`phaseLog` records the arguments of `transitionToPhase` calls, `deathStarts`
counts `startBossDeath` invocations, `playerHits` records damage amounts
delivered to the player. -/

inductive BossState where
  | DORMANT
  | AWAKENING
  | IDLE
  | WALKING
  | SLASH
  | CHARGE
  | SUMMON
  | SLAM
  | STUNNED
  | DYING
  | DEAD
deriving DecidableEq, Repr

structure BossScene where
  bossX : ℚ := 1100
  bossY : ℚ := 520
  bossHealth : Int := 20
  bossMaxHealth : Int := 20
  bossState : BossState := .DORMANT
  bossPhase : Nat := 1
  bossFacing : Int := -1
  bossVelocityX : ℚ := 0
  bossVelocityY : ℚ := 0
  stateTimer : ℚ := 0
  attackCooldown : ℚ := 0
  invincibleTimer : ℚ := 0
  phaseLog : List Nat := []
  deathStarts : Nat := 0
  playerHits : List Int := []
deriving DecidableEq

/-- The `transitionToPhase(phase)` method: set the phase, force the state to
`STUNNED` for an extended duration, and fire the one-shot narrative cue
(recorded in `phaseLog`). -/
def transitionToPhase (phase : Nat) (s : BossScene) : BossScene :=
  { s with
    bossPhase := phase
    bossState := .STUNNED
    stateTimer := 2000
    phaseLog := s.phaseLog ++ [phase] }

/-- The `startBossDeath()` method: enter `DYING`, destroy all void orbs, and
run the scripted death sequence (its `delayedCall(2500)` continuation is
`bossDeathComplete`).  Each invocation is counted in `deathStarts`. -/
def startBossDeath (s : BossScene) : BossScene :=
  { s with bossState := .DYING, deathStarts := s.deathStarts + 1 }

/-- Continuation of the death sequence: `delayedCall(2500, ...)` sets `DEAD`
and shows the victory screen. -/
def bossDeathComplete (s : BossScene) : BossScene :=
  { s with bossState := .DEAD }

/-- The `bossTakeDamage(amount)` method: decrement health, start the 300 ms
invulnerability window, evaluate the phase thresholds (66% / 33%, one-way
ratchets on `bossPhase`), then run the death check. -/
def bossTakeDamage (amount : Int) (s : BossScene) : BossScene :=
  let s1 := { s with bossHealth := s.bossHealth - amount, invincibleTimer := 300 }
  let s2 :=
    if 100 * s1.bossHealth ≤ 33 * s1.bossMaxHealth ∧ s1.bossPhase < 3 then
      transitionToPhase 3 s1
    else if 100 * s1.bossHealth ≤ 66 * s1.bossMaxHealth ∧ s1.bossPhase < 2 then
      transitionToPhase 2 s1
    else s1
  if s2.bossHealth ≤ 0 then startBossDeath s2 else s2

/-- The `player-attack` event handler registered in `setupCombat()`: rejects
the hit while the boss is `DORMANT`, `AWAKENING` or `DEAD`, or inside its
invulnerability window; otherwise a hit overlapping the boss hitbox deals 1
damage. -/
def onPlayerAttack (overlapsBoss : Bool) (s : BossScene) : BossScene :=
  if s.bossState = .DORMANT ∨ s.bossState = .AWAKENING ∨ s.bossState = .DEAD
      ∨ 0 < s.invincibleTimer then s
  else if overlapsBoss then bossTakeDamage 1 s
  else s

/-- The per-frame timer countdowns in `update(time, delta)`: attack cooldown
and invulnerability timer each decrement while positive. -/
def sceneTickTimers (delta : ℚ) (s : BossScene) : BossScene :=
  { s with
    attackCooldown := if 0 < s.attackCooldown then s.attackCooldown - delta else s.attackCooldown
    invincibleTimer := if 0 < s.invincibleTimer then s.invincibleTimer - delta else s.invincibleTimer }

/-- Synchronous part of `startSlash()`: state, state timer, velocity stop and
the phase-scaled attack cooldown (the 150 ms-delayed hitbox spawn is guarded
by a `SLASH` state check and does not affect these fields). -/
def startSlash (s : BossScene) : BossScene :=
  { s with
    bossState := .SLASH
    stateTimer := 400
    bossVelocityX := 0
    attackCooldown := 800 - ((s.bossPhase : ℚ) - 1) * 150 }

/-- Synchronous part of `startCharge()` (the 200 ms-delayed velocity burst is
guarded by a `CHARGE` state check). -/
def startCharge (s : BossScene) : BossScene :=
  { s with bossState := .CHARGE, stateTimer := 600, attackCooldown := 1500 }

/-- Synchronous part of `startSummon()` (the staggered orb spawns are modelled
by `VoidOrb` below). -/
def startSummon (s : BossScene) : BossScene :=
  { s with bossState := .SUMMON, stateTimer := 1500, bossVelocityX := 0, attackCooldown := 2000 }

/-- Synchronous part of `startSlam()` (the scripted rise-and-fall tween only
moves the container and `bossY`). -/
def startSlam (s : BossScene) : BossScene :=
  { s with bossState := .SLAM, stateTimer := 1000, attackCooldown := 2500 }

/-- The `chooseNextAction()` decision function: `playerX` is the live player
position, `roll` the single `Math.random()` draw shared by all branches. -/
def chooseNextAction (playerX roll : ℚ) (s : BossScene) : BossScene :=
  let distance := |playerX - s.bossX|
  if distance < 120 then startSlash s
  else if 400 < distance ∧ 2 ≤ s.bossPhase ∧ (1 : ℚ) / 2 < roll then startCharge s
  else if 2 ≤ s.bossPhase ∧ (7 : ℚ) / 10 < roll then startSummon s
  else if 3 ≤ s.bossPhase ∧ (3 : ℚ) / 5 < roll then startSlam s
  else { s with bossState := .WALKING, stateTimer := 2000 }

/-- The `updateIdle()` state behaviour: velocities are zeroed every tick; the
decision function runs only once both the idle state timer and the attack
cooldown have elapsed. -/
def updateIdle (playerX roll : ℚ) (s : BossScene) : BossScene :=
  let s1 := { s with bossVelocityX := 0, bossVelocityY := 0 }
  if s1.stateTimer ≤ 0 ∧ s1.attackCooldown ≤ 0 then chooseNextAction playerX roll s1
  else s1

/-- The `updateCharge()` state behaviour: contact with the player ends the
charge into `IDLE`, reaching either wall threshold stuns the boss (which also
reloads the state timer to 1000, so the timeout branch below cannot override
it in the same tick), and an elapsed state timer otherwise ends the charge. -/
def updateCharge (overlapsPlayer : Bool) (s : BossScene) : BossScene :=
  if overlapsPlayer then
    { s with
      playerHits := s.playerHits ++ [2]
      bossVelocityX := 0
      bossState := .IDLE
      stateTimer := 500 }
  else
    let s1 :=
      if s.bossX ≤ 100 ∨ 1300 ≤ s.bossX then
        { s with bossVelocityX := 0, bossState := .STUNNED, stateTimer := 1000 }
      else s
    if s1.stateTimer ≤ 0 then
      { s1 with bossVelocityX := 0, bossState := .IDLE, stateTimer := 300 }
    else s1

/-- The `checkBossPlayerCollision()` body-contact check run at the end of the
boss tick: returns the contact damage dealt to the player, if any. -/
def checkBossPlayerCollision (overlapsPlayer : Bool) (s : BossScene) : Option Int :=
  if s.bossState = .DORMANT ∨ s.bossState = .DEAD then none
  else if overlapsPlayer ∧ s.bossState ≠ .STUNNED then some 1
  else none

/-- Scene state right after the awakening cutscene hands control to the fight
(`delayedCall(2500)` in `startBossFight`): full health, phase 1, `IDLE`. -/
def bossFightStart : BossScene :=
  { bossState := .IDLE, stateTimer := 500 }

/-- The boss after `k` accepted damage events.  Every damage event in the
program is a landed player attack carrying amount 1
(`this.bossTakeDamage(1)` in `setupCombat`). -/
def bossAfterHits : Nat → BossScene
  | 0 => bossFightStart
  | k + 1 => bossTakeDamage 1 (bossAfterHits k)

/-! ### Void orb sub-system (spawnVoidOrb / updateVoidOrbs)

An orb stores its remaining lifetime and the `chasing` flag armed by the
rise tween after 500 ms.  Each `updateVoidOrbs` tick first decrements the
lifetime (expiry destroys the orb with no damage), then — while chasing —
moves toward the live player and, when the start-of-tick distance to the
player is below 30, deals 1 damage and destroys the orb.  The squared
distance `dist2` between orb and live player at the start of the tick is the
input abstracting the positions (`dist < 30` iff `dist2 < 900`); the
movement itself only changes future distances, which arrive as later
inputs. -/

structure VoidOrb where
  lifetime : ℚ := 3000
  chasing : Bool := false
  speed : ℚ := 200
deriving DecidableEq, Repr

inductive OrbStep where
  | expired
  | hitPlayer (damage : Int)
  | survives (o : VoidOrb)
deriving DecidableEq, Repr

/-- One `updateVoidOrbs` tick for a single orb. -/
def updateVoidOrb (delta dist2 : ℚ) (o : VoidOrb) : OrbStep :=
  let life := o.lifetime - delta
  if life ≤ 0 then .expired
  else if o.chasing ∧ dist2 < 900 then .hitPlayer 1
  else .survives { o with lifetime := life }

/-- Run an orb through a sequence of ticks, each given by the frame delta and
the squared distance to the live player at that tick; returns the surviving
orb (`none` once destroyed) and the total damage dealt. -/
def runVoidOrb (o : VoidOrb) : List (ℚ × ℚ) → Option VoidOrb × Int
  | [] => (some o, 0)
  | (delta, dist2) :: rest =>
    match updateVoidOrb delta dist2 o with
    | .expired => (none, 0)
    | .hitPlayer d => (none, d)
    | .survives o2 => runVoidOrb o2 rest

/-- Total elapsed time of a tick sequence. -/
def sumDeltas (ticks : List (ℚ × ℚ)) : ℚ :=
  (ticks.map Prod.fst).sum

/-! Concrete sample states used by the witness theorems. -/

/-- A boss mid-charge that has reached the left wall threshold. -/
def chargeAtWall : BossScene :=
  { bossFightStart with bossState := .CHARGE, bossX := 90, stateTimer := 400 }

/-- A stunned boss (for example after a whiffed charge). -/
def stunnedBoss : BossScene :=
  { bossFightStart with bossState := .STUNNED, stateTimer := 1000 }

/-- A phase-2 boss ready to act, with the player far away. -/
def idleFarBoss : BossScene :=
  { bossFightStart with stateTimer := 0, attackCooldown := 0, bossPhase := 2 }

/-- A freshly spawned, unarmed orb. -/
def freshOrb : VoidOrb := {}

/-- An armed orb that has been chasing for a while. -/
def armedOrb : VoidOrb := { lifetime := 500, chasing := true }

/-- An enemy that is hurt (for the two-call scenario generality). -/
def hurtEnemy : Enemy :=
  { health := 2, maxHealth := 2, damage := 1, isHurt := true, hurtTimer := 200, x := 300 }

/-- A healthy enemy about to be hit. -/
def freshEnemy : Enemy :=
  { health := 2, maxHealth := 2, damage := 1, x := 300 }

/-- A hurt flyer. -/
def hurtFlyer : Flyer :=
  { base := { health := 1, maxHealth := 1, damage := 1, isHurt := true, hurtTimer := 200, x := 400 }
    currentState := .SWOOP }

/-- A healthy flyer about to be hit. -/
def freshFlyer : Flyer :=
  { base := { health := 1, maxHealth := 1, damage := 1, x := 400 }, currentState := .TRACK }

/-- A player inside the invincibility window. -/
def invinciblePlayer : Player :=
  { health := 5, invincible := true, x := 100, y := 520, spawnX := 150, spawnY := 520 }

/-- A vulnerable player. -/
def freshPlayer : Player :=
  { health := 5, x := 100, y := 520, spawnX := 150, spawnY := 520 }

/-- The fighting boss inside its invulnerability window. -/
def invulnBoss : BossScene :=
  { bossFightStart with invincibleTimer := 120 }

/-! ### Theorems -/

theorem Enemy.takeDamage_guard (a : Int) (sx : ℚ) (e : Enemy)
    (h : e.isHurt = true ∨ e.isAlive = false) :
    Enemy.takeDamage a sx e = e := by
  rcases h with h | h <;> simp [Enemy.takeDamage, h]

theorem Enemy.takeDamage_makes_hurt (a : Int) (sx : ℚ) (e : Enemy)
    (h1 : e.isHurt = false) (h2 : e.isAlive = true) :
    (Enemy.takeDamage a sx e).isHurt = true := by
  simp only [Enemy.takeDamage, h1, h2, Bool.false_eq_true, Bool.true_eq_false, not_true,
    or_self, if_false, false_or, Bool.not_true, ite_false]
  split <;> rfl

theorem Flyer.takeDamage_base (a : Int) (sx : ℚ) (f : Flyer) :
    (Flyer.takeDamage a sx f).base = Enemy.takeDamage a sx f.base := by
  by_cases h : (Enemy.takeDamage a sx f.base).isAlive = true <;>
    simp [Flyer.takeDamage, h]

theorem Flyer.takeDamage_behaviourState (a : Int) (sx : ℚ) (f : Flyer) :
    (Flyer.takeDamage a sx f).currentState = f.currentState := by
  by_cases h : (Enemy.takeDamage a sx f.base).isAlive = true <;>
    simp [Flyer.takeDamage, h]

theorem Flyer.takeDamage_hit_marks (a : Int) (sx : ℚ) (f : Flyer)
    (halive : (Flyer.takeDamage a sx f).base.isAlive = true) :
    (Flyer.takeDamage a sx f).gameObjState = FlyerState.RETREAT.code ∧
    (Flyer.takeDamage a sx f).retreatTimer = (Flyer.takeDamage a sx f).retreatDuration := by
  rw [Flyer.takeDamage_base] at halive
  simp [Flyer.takeDamage, halive]

theorem Player.takeDamage_makes_invincible (a : Int) (sx : ℚ) (p : Player)
    (h : p.invincible = false) :
    (Player.takeDamage a sx p).invincible = true := by
  simp only [Player.takeDamage, h, Bool.false_eq_true, if_false, ite_false]
  split <;> rfl

theorem bossTakeDamage_invincibleTimer (a : Int) (s : BossScene) :
    (bossTakeDamage a s).invincibleTimer = 300 := by
  simp only [bossTakeDamage]
  split_ifs <;> simp [transitionToPhase, startBossDeath]

/-- C2: for each damageable entity, a `takeDamage` call made inside the hurt
or invulnerability window, or after death, leaves health unchanged (and for
the crawler base class, the player and the boss handler it is a full no-op);
consequently a second call within the window created by a first accepted hit
changes nothing, so health changes exactly once. -/
theorem takeDamage_noop_when_guarded :
    (∀ (e : Enemy) (a : Int) (sx : ℚ), e.isHurt = true ∨ e.isAlive = false →
      Enemy.takeDamage a sx e = e) ∧
    (∀ (f : Flyer) (a : Int) (sx : ℚ), f.base.isHurt = true ∨ f.base.isAlive = false →
      (Flyer.takeDamage a sx f).base.health = f.base.health ∧
      (Flyer.takeDamage a sx f).base.isAlive = f.base.isAlive ∧
      (Flyer.takeDamage a sx f).currentState = f.currentState) ∧
    (∀ (p : Player) (a : Int) (sx : ℚ), p.invincible = true →
      Player.takeDamage a sx p = p) ∧
    (∀ (s : BossScene) (ov : Bool), 0 < s.invincibleTimer ∨ s.bossState = .DEAD →
      onPlayerAttack ov s = s) ∧
    (∀ (e : Enemy) (a1 a2 : Int) (sx1 sx2 : ℚ), e.isHurt = false → e.isAlive = true →
      Enemy.takeDamage a2 sx2 (Enemy.takeDamage a1 sx1 e) = Enemy.takeDamage a1 sx1 e) ∧
    (∀ (f : Flyer) (a1 a2 : Int) (sx1 sx2 : ℚ), f.base.isHurt = false → f.base.isAlive = true →
      Flyer.takeDamage a2 sx2 (Flyer.takeDamage a1 sx1 f) = Flyer.takeDamage a1 sx1 f) ∧
    (∀ (p : Player) (a1 a2 : Int) (sx1 sx2 : ℚ), p.invincible = false →
      Player.takeDamage a2 sx2 (Player.takeDamage a1 sx1 p) = Player.takeDamage a1 sx1 p) ∧
    (∀ (s : BossScene) (ov : Bool),
      s.bossState ≠ .DORMANT → s.bossState ≠ .AWAKENING → s.bossState ≠ .DEAD →
      s.invincibleTimer ≤ 0 →
      onPlayerAttack ov (onPlayerAttack true s) = onPlayerAttack true s) := by
  have eguard := Enemy.takeDamage_guard
  refine ⟨fun e a sx h => eguard a sx e h, ?_, ?_, ?_, ?_, ?_, ?_, ?_⟩
  · intro f a sx h
    rw [Flyer.takeDamage_base, Flyer.takeDamage_behaviourState, eguard a sx f.base h]
    exact ⟨rfl, rfl, rfl⟩
  · intro p a sx h
    simp [Player.takeDamage, h]
  · intro s ov h
    rcases h with h | h <;> simp [onPlayerAttack, h]
  · intro e a1 a2 sx1 sx2 h1 h2
    exact eguard a2 sx2 _ (Or.inl (Enemy.takeDamage_makes_hurt a1 sx1 e h1 h2))
  · intro f a1 a2 sx1 sx2 h1 h2
    have hhurt : (Flyer.takeDamage a1 sx1 f).base.isHurt = true := by
      rw [Flyer.takeDamage_base]
      exact Enemy.takeDamage_makes_hurt a1 sx1 f.base h1 h2
    by_cases halive : (Flyer.takeDamage a1 sx1 f).base.isAlive = true
    · obtain ⟨k1, k2⟩ := Flyer.takeDamage_hit_marks a1 sx1 f halive
      set f1 := Flyer.takeDamage a1 sx1 f with hf1
      have hguard : Enemy.takeDamage a2 sx2 f1.base = f1.base :=
        eguard a2 sx2 _ (Or.inl hhurt)
      simp only [Flyer.takeDamage, hguard, halive, if_true]
      clear_value f1
      obtain ⟨base, cs, gos, rt, rd, tt, st, ho⟩ := f1
      have k1a : gos = FlyerState.RETREAT.code := k1
      have k2a : rt = rd := k2
      subst k1a
      subst k2a
      rfl
    · set f1 := Flyer.takeDamage a1 sx1 f with hf1
      have hguard : Enemy.takeDamage a2 sx2 f1.base = f1.base :=
        eguard a2 sx2 _ (Or.inl hhurt)
      simp only [Flyer.takeDamage, hguard]
      rw [if_neg halive]
  · intro p a1 a2 sx1 sx2 h
    have hinv : (Player.takeDamage a1 sx1 p).invincible = true :=
      Player.takeDamage_makes_invincible a1 sx1 p h
    set p1 := Player.takeDamage a1 sx1 p with hp1
    simp [Player.takeDamage, hinv]
  · intro s ov hD hA hE ht
    have hfirst : onPlayerAttack true s = bossTakeDamage 1 s := by
      simp [onPlayerAttack, hD, hA, hE, not_lt.mpr ht]
    rw [hfirst]
    have htimer : (0 : ℚ) < (bossTakeDamage 1 s).invincibleTimer := by
      rw [bossTakeDamage_invincibleTimer]
      norm_num
    set s1 := bossTakeDamage 1 s with hs1
    simp [onPlayerAttack, htimer]

/-- Witness for C2: concrete guarded calls are no-ops and concrete second
calls inside a fresh hurt window change nothing. -/
theorem takeDamage_noop_when_guarded_check :
    Enemy.takeDamage 1 0 hurtEnemy = hurtEnemy ∧
    ((Flyer.takeDamage 1 0 hurtFlyer).base.health = hurtFlyer.base.health ∧
      (Flyer.takeDamage 1 0 hurtFlyer).base.isAlive = hurtFlyer.base.isAlive ∧
      (Flyer.takeDamage 1 0 hurtFlyer).currentState = hurtFlyer.currentState) ∧
    Player.takeDamage 2 0 invinciblePlayer = invinciblePlayer ∧
    onPlayerAttack true invulnBoss = invulnBoss ∧
    Enemy.takeDamage 1 350 (Enemy.takeDamage 1 350 freshEnemy) =
      Enemy.takeDamage 1 350 freshEnemy ∧
    Flyer.takeDamage 1 350 (Flyer.takeDamage 1 350 freshFlyer) =
      Flyer.takeDamage 1 350 freshFlyer ∧
    Player.takeDamage 2 1100 (Player.takeDamage 2 1100 freshPlayer) =
      Player.takeDamage 2 1100 freshPlayer ∧
    onPlayerAttack true (onPlayerAttack true bossFightStart) =
      onPlayerAttack true bossFightStart := by
  obtain ⟨t1, t2, t3, t4, t5, t6, t7, t8⟩ := takeDamage_noop_when_guarded
  exact ⟨t1 hurtEnemy 1 0 (Or.inl rfl),
    t2 hurtFlyer 1 0 (Or.inl rfl),
    t3 invinciblePlayer 2 0 rfl,
    t4 invulnBoss true (Or.inl (by norm_num [invulnBoss])),
    t5 freshEnemy 1 1 350 350 rfl rfl,
    t6 freshFlyer 1 1 350 350 rfl rfl,
    t7 freshPlayer 2 2 1100 1100 rfl,
    t8 bossFightStart true (by simp [bossFightStart]) (by simp [bossFightStart])
      (by simp [bossFightStart]) (by norm_num [bossFightStart])⟩

theorem runVoidOrb_no_contact (o : VoidOrb) (ticks : List (ℚ × ℚ))
    (hpos : 0 < o.lifetime) (h : ∀ t ∈ ticks, 900 ≤ t.2) :
    (runVoidOrb o ticks).2 = 0 ∧
    (∀ o2, (runVoidOrb o ticks).1 = some o2 →
      o2.lifetime = o.lifetime - sumDeltas ticks ∧ 0 < o2.lifetime) := by
  induction ticks generalizing o with
  | nil =>
    refine ⟨rfl, ?_⟩
    intro o2 h2
    simp only [runVoidOrb, Option.some.injEq] at h2
    subst h2
    simpa [sumDeltas] using hpos
  | cons t rest ih =>
    obtain ⟨delta, dist2⟩ := t
    have h900 : 900 ≤ dist2 := h (delta, dist2) (List.mem_cons_self _ _)
    have hrest : ∀ t ∈ rest, 900 ≤ t.2 := fun t ht => h t (List.mem_cons_of_mem _ ht)
    by_cases hl : o.lifetime - delta ≤ 0
    · constructor
      · simp [runVoidOrb, updateVoidOrb, hl]
      · intro o2 h2
        simp [runVoidOrb, updateVoidOrb, hl] at h2
    · have hnc : ¬(o.chasing = true ∧ dist2 < 900) := by
        rintro ⟨_, hlt⟩
        linarith
      have hstep : updateVoidOrb delta dist2 o =
          .survives { o with lifetime := o.lifetime - delta } := by
        simp [updateVoidOrb, hl, hnc]
      have hrun : runVoidOrb o ((delta, dist2) :: rest) =
          runVoidOrb { o with lifetime := o.lifetime - delta } rest := by
        simp [runVoidOrb, hstep]
      have hpos2 : (0 : ℚ) < ({ o with lifetime := o.lifetime - delta } : VoidOrb).lifetime := by
        simpa using lt_of_not_ge (fun hge => hl (by linarith))
      obtain ⟨ihd, ihs⟩ := ih { o with lifetime := o.lifetime - delta } hpos2 hrest
      rw [hrun]
      refine ⟨ihd, ?_⟩
      intro o2 h2
      obtain ⟨hlife, hp⟩ := ihs o2 h2
      refine ⟨?_, hp⟩
      rw [hlife]
      simp [sumDeltas]
      ring

/-- C7: a void orb that never comes within the 30-pixel hit radius of the
player deals no damage and can only survive while the elapsed time is still
below its lifetime — hence it is destroyed at or before its lifetime has
elapsed; an armed (chasing) orb that comes within the hit radius of the live
player while still alive deals its fixed damage of 1 and is destroyed by the
same tick, so the damage is dealt exactly once no matter what follows. -/
theorem void_orb_lifecycle :
    (∀ (o : VoidOrb) (ticks : List (ℚ × ℚ)), 0 < o.lifetime →
        (∀ t ∈ ticks, 900 ≤ t.2) →
        (runVoidOrb o ticks).2 = 0 ∧
        (∀ o2, (runVoidOrb o ticks).1 = some o2 → sumDeltas ticks < o.lifetime) ∧
        (o.lifetime ≤ sumDeltas ticks → (runVoidOrb o ticks).1 = none)) ∧
    (∀ (o : VoidOrb) (delta dist2 : ℚ) (rest : List (ℚ × ℚ)),
        o.chasing = true → 0 < o.lifetime - delta → dist2 < 900 →
        updateVoidOrb delta dist2 o = .hitPlayer 1 ∧
        runVoidOrb o ((delta, dist2) :: rest) = (none, 1)) := by
  constructor
  · intro o ticks hpos h
    obtain ⟨hd, hs⟩ := runVoidOrb_no_contact o ticks hpos h
    have hsurv : ∀ o2, (runVoidOrb o ticks).1 = some o2 → sumDeltas ticks < o.lifetime := by
      intro o2 h2
      obtain ⟨hlife, hp⟩ := hs o2 h2
      rw [hlife] at hp
      linarith
    refine ⟨hd, hsurv, ?_⟩
    intro hle
    rcases h2 : (runVoidOrb o ticks).1 with _ | o2
    · rfl
    · exact absurd (hsurv o2 h2) (not_lt.mpr hle)
  · intro o delta dist2 rest h1 h2 h3
    have hstep : updateVoidOrb delta dist2 o = .hitPlayer 1 := by
      have hl : ¬(o.lifetime - delta ≤ 0) := not_le.mpr h2
      simp [updateVoidOrb, hl, h1, h3]
    exact ⟨hstep, by simp [runVoidOrb, hstep]⟩

/-- Witness for C7: a never-contacted orb survives 1 s then is destroyed on
lifetime expiry with no damage; an armed orb within the hit radius deals 1
damage and is destroyed. -/
theorem void_orb_lifecycle_check :
    ((runVoidOrb freshOrb [(1000, 250000), (2500, 160000)]).2 = 0 ∧
     (runVoidOrb freshOrb [(1000, 250000), (2500, 160000)]).1 = none) ∧
    runVoidOrb armedOrb [(16, 400)] = (none, 1) := by
  have hdist : ∀ t ∈ [((1000 : ℚ), (250000 : ℚ)), (2500, 160000)], (900 : ℚ) ≤ t.2 := by
    intro t ht
    simp only [List.mem_cons, List.mem_singleton, List.not_mem_nil, or_false] at ht
    rcases ht with h | h <;> subst h <;> norm_num
  have h1 := void_orb_lifecycle.1 freshOrb [(1000, 250000), (2500, 160000)]
    (by norm_num [freshOrb]) hdist
  refine ⟨⟨h1.1, h1.2.2 (by norm_num [freshOrb, sumDeltas])⟩, ?_⟩
  exact (void_orb_lifecycle.2 armedOrb 16 400 [] rfl (by norm_num [armedOrb]) (by norm_num)).2

/-- C6: if a charging boss reaches either wall threshold without having
contacted the player and before its charge timer has elapsed, the tick sends
it to `STUNNED` (velocity zeroed, stun timer loaded), not to `IDLE`. -/
theorem charge_wall_stuns_boss (s : BossScene)
    (hstate : s.bossState = .CHARGE)
    (hwall : s.bossX ≤ 100 ∨ 1300 ≤ s.bossX)
    (htimer : 0 < s.stateTimer) :
    (updateCharge false s).bossState = .STUNNED ∧
    (updateCharge false s).bossVelocityX = 0 ∧
    (updateCharge false s).stateTimer = 1000 ∧
    (updateCharge false s).bossState ≠ .IDLE := by
  have h0 : updateCharge false s =
      { s with bossVelocityX := 0, bossState := .STUNNED, stateTimer := 1000 } := by
    simp only [updateCharge, Bool.false_eq_true, if_false, if_pos hwall]
    norm_num
  rw [h0]
  refine ⟨rfl, rfl, rfl, by simp⟩

/-- Witness for C6: a boss charging into the left wall with 400 ms left on
its charge timer ends the tick stunned. -/
theorem charge_wall_stuns_boss_check :
    (updateCharge false chargeAtWall).bossState = .STUNNED ∧
    (updateCharge false chargeAtWall).bossVelocityX = 0 ∧
    (updateCharge false chargeAtWall).stateTimer = 1000 ∧
    (updateCharge false chargeAtWall).bossState ≠ .IDLE :=
  charge_wall_stuns_boss chargeAtWall rfl (Or.inl (by norm_num [chargeAtWall, bossFightStart]))
    (by norm_num [chargeAtWall, bossFightStart])

/-- C10: the body-contact check never damages the player while the boss is
`STUNNED`, `DORMANT` or `DEAD`, and any contact damage it deals requires an
actual overlap in one of the remaining states. -/
theorem boss_contact_damage_states (s : BossScene) (ov : Bool) :
    ((s.bossState = .STUNNED ∨ s.bossState = .DORMANT ∨ s.bossState = .DEAD) →
      checkBossPlayerCollision ov s = none) ∧
    (∀ d, checkBossPlayerCollision ov s = some d →
      ov = true ∧ d = 1 ∧
      s.bossState ≠ .STUNNED ∧ s.bossState ≠ .DORMANT ∧ s.bossState ≠ .DEAD) := by
  constructor
  · rintro (h | h | h) <;> simp [checkBossPlayerCollision, h]
  · intro d hd
    unfold checkBossPlayerCollision at hd
    split_ifs at hd with h1 h2
    obtain ⟨hov, hst⟩ := h2
    have hd1 : d = 1 := by simpa using hd.symm
    subst hd1
    exact ⟨hov, rfl, hst, fun hc => h1 (Or.inl hc), fun hc => h1 (Or.inr hc)⟩

/-- Witness for C10: overlapping a stunned boss deals nothing; overlapping
the active idle boss deals the contact damage of 1. -/
theorem boss_contact_damage_states_check :
    checkBossPlayerCollision true stunnedBoss = none ∧
    (true = true ∧ (1 : Int) = 1 ∧
      bossFightStart.bossState ≠ .STUNNED ∧
      bossFightStart.bossState ≠ .DORMANT ∧
      bossFightStart.bossState ≠ .DEAD) :=
  ⟨(boss_contact_damage_states stunnedBoss true).1 (Or.inl rfl),
   (boss_contact_damage_states bossFightStart true).2 1 rfl⟩

theorem bossTakeDamage_fields (a : Int) (s : BossScene) :
    (bossTakeDamage a s).bossHealth = s.bossHealth - a ∧
    (bossTakeDamage a s).bossMaxHealth = s.bossMaxHealth ∧
    (bossTakeDamage a s).bossPhase =
      (if 100 * (s.bossHealth - a) ≤ 33 * s.bossMaxHealth ∧ s.bossPhase < 3 then 3
       else if 100 * (s.bossHealth - a) ≤ 66 * s.bossMaxHealth ∧ s.bossPhase < 2 then 2
       else s.bossPhase) ∧
    (bossTakeDamage a s).phaseLog =
      (if 100 * (s.bossHealth - a) ≤ 33 * s.bossMaxHealth ∧ s.bossPhase < 3 then
        s.phaseLog ++ [3]
       else if 100 * (s.bossHealth - a) ≤ 66 * s.bossMaxHealth ∧ s.bossPhase < 2 then
        s.phaseLog ++ [2]
       else s.phaseLog) := by
  simp only [bossTakeDamage]
  split_ifs <;> simp [transitionToPhase, startBossDeath]

theorem bossAfterHits_invariant (k : Nat) :
    (bossAfterHits k).bossHealth = 20 - (k : Int) ∧
    (bossAfterHits k).bossMaxHealth = 20 ∧
    (bossAfterHits k).bossPhase = (if k ≤ 6 then 1 else if k ≤ 13 then 2 else 3) ∧
    (bossAfterHits k).phaseLog =
      (if k ≤ 6 then ([] : List Nat) else if k ≤ 13 then [2] else [2, 3]) := by
  induction k with
  | zero => refine ⟨by norm_num [bossAfterHits, bossFightStart], rfl, rfl, rfl⟩
  | succ k ih =>
    obtain ⟨ih1, ih2, ih3, ih4⟩ := ih
    obtain ⟨e1, e2, e3, e4⟩ := bossTakeDamage_fields 1 (bossAfterHits k)
    have hstep : bossAfterHits (k + 1) = bossTakeDamage 1 (bossAfterHits k) := rfl
    have hsplit : k ≤ 5 ∨ k = 6 ∨ (7 ≤ k ∧ k ≤ 12) ∨ k = 13 ∨ 14 ≤ k := by omega
    have main :
        (bossTakeDamage 1 (bossAfterHits k)).bossPhase =
          (if k + 1 ≤ 6 then 1 else if k + 1 ≤ 13 then 2 else 3) ∧
        (bossTakeDamage 1 (bossAfterHits k)).phaseLog =
          (if k + 1 ≤ 6 then ([] : List Nat) else if k + 1 ≤ 13 then [2] else [2, 3]) := by
      rcases hsplit with hk | hk | ⟨hk1, hk2⟩ | hk | hk
      · have hp : (bossAfterHits k).bossPhase = 1 := by
          rw [ih3, if_pos (by omega : k ≤ 6)]
        have hl : (bossAfterHits k).phaseLog = [] := by
          rw [ih4, if_pos (by omega : k ≤ 6)]
        have c1 : ¬(100 * ((bossAfterHits k).bossHealth - 1) ≤
            33 * (bossAfterHits k).bossMaxHealth ∧ (bossAfterHits k).bossPhase < 3) := by
          rw [ih1, ih2]
          rintro ⟨hc, -⟩
          omega
        have c2 : ¬(100 * ((bossAfterHits k).bossHealth - 1) ≤
            66 * (bossAfterHits k).bossMaxHealth ∧ (bossAfterHits k).bossPhase < 2) := by
          rw [ih1, ih2]
          rintro ⟨hc, -⟩
          omega
        constructor
        · rw [e3, if_neg c1, if_neg c2, hp, if_pos (by omega : k + 1 ≤ 6)]
        · rw [e4, if_neg c1, if_neg c2, hl, if_pos (by omega : k + 1 ≤ 6)]
      · subst hk
        have hp : (bossAfterHits 6).bossPhase = 1 := by
          rw [ih3]
          norm_num
        have hl : (bossAfterHits 6).phaseLog = [] := by
          rw [ih4]
          norm_num
        have c1 : ¬(100 * ((bossAfterHits 6).bossHealth - 1) ≤
            33 * (bossAfterHits 6).bossMaxHealth ∧ (bossAfterHits 6).bossPhase < 3) := by
          rw [ih1, ih2]
          rintro ⟨hc, -⟩
          omega
        have c2 : 100 * ((bossAfterHits 6).bossHealth - 1) ≤
            66 * (bossAfterHits 6).bossMaxHealth ∧ (bossAfterHits 6).bossPhase < 2 := by
          rw [ih1, ih2, hp]
          push_cast
          norm_num
        constructor
        · rw [e3, if_neg c1, if_pos c2]
          norm_num
        · rw [e4, if_neg c1, if_pos c2, hl]
          simp
      · have hp : (bossAfterHits k).bossPhase = 2 := by
          rw [ih3, if_neg (by omega : ¬k ≤ 6), if_pos (by omega : k ≤ 13)]
        have hl : (bossAfterHits k).phaseLog = [2] := by
          rw [ih4, if_neg (by omega : ¬k ≤ 6), if_pos (by omega : k ≤ 13)]
        have c1 : ¬(100 * ((bossAfterHits k).bossHealth - 1) ≤
            33 * (bossAfterHits k).bossMaxHealth ∧ (bossAfterHits k).bossPhase < 3) := by
          rw [ih1, ih2]
          rintro ⟨hc, -⟩
          omega
        have c2 : ¬(100 * ((bossAfterHits k).bossHealth - 1) ≤
            66 * (bossAfterHits k).bossMaxHealth ∧ (bossAfterHits k).bossPhase < 2) := by
          rw [hp]
          rintro ⟨-, hc⟩
          omega
        constructor
        · rw [e3, if_neg c1, if_neg c2, hp, if_neg (by omega : ¬k + 1 ≤ 6),
            if_pos (by omega : k + 1 ≤ 13)]
        · rw [e4, if_neg c1, if_neg c2, hl, if_neg (by omega : ¬k + 1 ≤ 6),
            if_pos (by omega : k + 1 ≤ 13)]
      · subst hk
        have hp : (bossAfterHits 13).bossPhase = 2 := by
          rw [ih3]
          norm_num
        have c1 : 100 * ((bossAfterHits 13).bossHealth - 1) ≤
            33 * (bossAfterHits 13).bossMaxHealth ∧ (bossAfterHits 13).bossPhase < 3 := by
          rw [ih1, ih2, hp]
          push_cast
          norm_num
        have hl : (bossAfterHits 13).phaseLog = [2] := by
          rw [ih4]
          norm_num
        constructor
        · rw [e3, if_pos c1]
          norm_num
        · rw [e4, if_pos c1, hl]
          simp
      · have hp : (bossAfterHits k).bossPhase = 3 := by
          rw [ih3, if_neg (by omega : ¬k ≤ 6), if_neg (by omega : ¬k ≤ 13)]
        have hl : (bossAfterHits k).phaseLog = [2, 3] := by
          rw [ih4, if_neg (by omega : ¬k ≤ 6), if_neg (by omega : ¬k ≤ 13)]
        have c1 : ¬(100 * ((bossAfterHits k).bossHealth - 1) ≤
            33 * (bossAfterHits k).bossMaxHealth ∧ (bossAfterHits k).bossPhase < 3) := by
          rw [hp]
          rintro ⟨-, hc⟩
          omega
        have c2 : ¬(100 * ((bossAfterHits k).bossHealth - 1) ≤
            66 * (bossAfterHits k).bossMaxHealth ∧ (bossAfterHits k).bossPhase < 2) := by
          rw [hp]
          rintro ⟨-, hc⟩
          omega
        constructor
        · rw [e3, if_neg c1, if_neg c2, hp, if_neg (by omega : ¬k + 1 ≤ 6),
            if_neg (by omega : ¬k + 1 ≤ 13)]
        · rw [e4, if_neg c1, if_neg c2, hl, if_neg (by omega : ¬k + 1 ≤ 6),
            if_neg (by omega : ¬k + 1 ≤ 13)]
    refine ⟨?_, by rw [hstep, e2, ih2], by rw [hstep]; exact main.1, by rw [hstep]; exact main.2⟩
    rw [hstep, e1, ih1]
    push_cast
    ring

/-- C1: over the fight's damage events (each landed player attack deals 1 via
`bossTakeDamage(1)`), driving health from `maxHealth` (20) down to 0 after 20
accepted hits, the phase is non-decreasing through exactly the values 1, 2
and 3; the 1-to-2 transition fires exactly once, at hit 7, where health (13)
first reaches 66% of max or below, the 2-to-3 transition fires exactly once,
at hit 14, where health (6) first reaches 33% of max or below, and — per the
transition log — no threshold ever fires a second time. -/
theorem boss_phase_monotonic (k : Nat) :
    (bossAfterHits 0).bossHealth = (bossAfterHits 0).bossMaxHealth ∧
    (bossAfterHits 20).bossHealth = 0 ∧
    (bossAfterHits k).bossHealth = 20 - (k : Int) ∧
    (bossAfterHits k).bossPhase ≤ (bossAfterHits (k + 1)).bossPhase ∧
    1 ≤ (bossAfterHits k).bossPhase ∧ (bossAfterHits k).bossPhase ≤ 3 ∧
    (bossAfterHits k).bossPhase = (if k ≤ 6 then 1 else if k ≤ 13 then 2 else 3) ∧
    (bossAfterHits k).phaseLog =
      (if k ≤ 6 then ([] : List Nat) else if k ≤ 13 then [2] else [2, 3]) := by
  obtain ⟨a1, a2, a3, a4⟩ := bossAfterHits_invariant 0
  obtain ⟨z1, z2, z3, z4⟩ := bossAfterHits_invariant 20
  obtain ⟨h1, h2, h3, h4⟩ := bossAfterHits_invariant k
  obtain ⟨g1, g2, g3, g4⟩ := bossAfterHits_invariant (k + 1)
  refine ⟨by rw [a1, a2]; norm_num, by rw [z1]; norm_num, h1, ?_, ?_, ?_, h3, h4⟩
  · rw [h3, g3]
    split_ifs <;> omega
  · rw [h3]
    split_ifs <;> omega
  · rw [h3]
    split_ifs <;> omega

/-- Witness for C1 at the concrete hit counts 7 and 14: the phase first
becomes 2 at hit 7 (health 13) and first becomes 3 at hit 14 (health 6),
with the transition log recording each firing exactly once. -/
theorem boss_phase_monotonic_check :
    (bossAfterHits 7).bossPhase = 2 ∧ (bossAfterHits 7).phaseLog = [2] ∧
    (bossAfterHits 14).bossPhase = 3 ∧ (bossAfterHits 14).phaseLog = [2, 3] := by
  obtain ⟨-, -, -, -, -, -, h7p, h7l⟩ := boss_phase_monotonic 7
  obtain ⟨-, -, -, -, -, -, h14p, h14l⟩ := boss_phase_monotonic 14
  refine ⟨?_, ?_, ?_, ?_⟩
  · rw [h7p]
    norm_num
  · rw [h7l]
    norm_num
  · rw [h14p]
    norm_num
  · rw [h14l]
    norm_num

/-- C5: the idle boss only acts once both the idle state timer and the attack
cooldown have elapsed (otherwise the tick merely zeroes its velocity), and
the decision then follows the priority: Slash when the player is closer than
120 regardless of phase; else Charge when the player is farther than 400, the
phase is at least 2 and the draw exceeds 0.5; else Summon when the phase is
at least 2 and the draw exceeds 0.7; else Slam when the phase is at least 3
and the draw exceeds 0.6; else Walking. -/
theorem idle_decision_policy (s : BossScene) (px roll : ℚ) :
    (¬(s.stateTimer ≤ 0 ∧ s.attackCooldown ≤ 0) →
      updateIdle px roll s = { s with bossVelocityX := 0, bossVelocityY := 0 }) ∧
    (s.stateTimer ≤ 0 → s.attackCooldown ≤ 0 →
      ((|px - s.bossX| < 120 → (updateIdle px roll s).bossState = .SLASH) ∧
       (¬|px - s.bossX| < 120 → 400 < |px - s.bossX| → 2 ≤ s.bossPhase →
          (1 : ℚ) / 2 < roll → (updateIdle px roll s).bossState = .CHARGE) ∧
       (¬|px - s.bossX| < 120 →
          ¬(400 < |px - s.bossX| ∧ 2 ≤ s.bossPhase ∧ (1 : ℚ) / 2 < roll) →
          2 ≤ s.bossPhase → (7 : ℚ) / 10 < roll →
          (updateIdle px roll s).bossState = .SUMMON) ∧
       (¬|px - s.bossX| < 120 →
          ¬(400 < |px - s.bossX| ∧ 2 ≤ s.bossPhase ∧ (1 : ℚ) / 2 < roll) →
          ¬(2 ≤ s.bossPhase ∧ (7 : ℚ) / 10 < roll) →
          3 ≤ s.bossPhase → (3 : ℚ) / 5 < roll →
          (updateIdle px roll s).bossState = .SLAM) ∧
       (¬|px - s.bossX| < 120 →
          ¬(400 < |px - s.bossX| ∧ 2 ≤ s.bossPhase ∧ (1 : ℚ) / 2 < roll) →
          ¬(2 ≤ s.bossPhase ∧ (7 : ℚ) / 10 < roll) →
          ¬(3 ≤ s.bossPhase ∧ (3 : ℚ) / 5 < roll) →
          (updateIdle px roll s).bossState = .WALKING))) := by
  constructor
  · intro h
    simp [updateIdle, h]
  · intro hts hac
    have hrun : updateIdle px roll s =
        chooseNextAction px roll { s with bossVelocityX := 0, bossVelocityY := 0 } := by
      simp [updateIdle, hts, hac]
    refine ⟨?_, ?_, ?_, ?_, ?_⟩
    · intro h1
      rw [hrun]
      simp [chooseNextAction, startSlash, h1]
    · intro h1 h2 h3 h4
      rw [hrun]
      simp only [chooseNextAction]
      rw [if_neg (by simpa using h1), if_pos (by exact ⟨by simpa using h2, h3, h4⟩)]
      rfl
    · intro h1 h2 h3 h4
      rw [hrun]
      simp only [chooseNextAction]
      rw [if_neg (by simpa using h1), if_neg (by simpa using h2),
        if_pos (by exact ⟨h3, h4⟩)]
      rfl
    · intro h1 h2 h3 h4 h5
      rw [hrun]
      simp only [chooseNextAction]
      rw [if_neg (by simpa using h1), if_neg (by simpa using h2), if_neg (by simpa using h3),
        if_pos (by exact ⟨h4, h5⟩)]
      rfl
    · intro h1 h2 h3 h4
      rw [hrun]
      simp only [chooseNextAction]
      rw [if_neg (by simpa using h1), if_neg (by simpa using h2), if_neg (by simpa using h3),
        if_neg (by simpa using h4)]

/-- Witness for C5: a gated tick leaves the boss idle; a ready phase-2 boss
950 px from the player rolling 0.75 charges; the same boss 50 px away
slashes. -/
theorem idle_decision_policy_check :
    updateIdle 150 (3 / 4) { idleFarBoss with stateTimer := 250 } =
      { idleFarBoss with stateTimer := 250, bossVelocityX := 0, bossVelocityY := 0 } ∧
    (updateIdle 150 (3 / 4) idleFarBoss).bossState = .CHARGE ∧
    (updateIdle 1050 (3 / 4) idleFarBoss).bossState = .SLASH := by
  refine ⟨?_, ?_, ?_⟩
  · exact (idle_decision_policy { idleFarBoss with stateTimer := 250 } 150 (3 / 4)).1
      (by norm_num [idleFarBoss, bossFightStart])
  · exact ((idle_decision_policy idleFarBoss 150 (3 / 4)).2
        (by norm_num [idleFarBoss, bossFightStart]) (by norm_num [idleFarBoss, bossFightStart])).2.1
      (by norm_num [idleFarBoss, bossFightStart]) (by norm_num [idleFarBoss, bossFightStart])
      (by norm_num [idleFarBoss, bossFightStart]) (by norm_num)
  · exact ((idle_decision_policy idleFarBoss 1050 (3 / 4)).2
        (by norm_num [idleFarBoss, bossFightStart]) (by norm_num [idleFarBoss, bossFightStart])).1
      (by norm_num [idleFarBoss, bossFightStart])

/-- The boss one landed hit from death: health 1, phase 3, ready to be hit
(this is the state `bossAfterHits 19` reaches, fields relevant to damage). -/
def bossOnLastHitInput : BossScene :=
  { bossFightStart with bossHealth := 1, bossPhase := 3 }

/-- The killing blow. -/
def bossOnLastHit : BossScene := onPlayerAttack true bossOnLastHitInput

/-- 400 ms of frames later, still mid death sequence (which runs 2500 ms
before `DEAD`), the invulnerability window (300 ms) has expired. -/
def bossDyingLater : BossScene := sceneTickTimers 400 bossOnLastHit

/-- A second landed player attack during the death sequence. -/
def bossDoubleDeath : BossScene := onPlayerAttack true bossDyingLater

/-- C3: evaluating the damage path at a concrete input shows the death
sequence is re-entrant: the killing blow sends the boss to `DYING` and starts
the death sequence once, but a second landed attack 400 ms later — `DYING` is
missing from the `player-attack` guard and the 300 ms invulnerability window
has expired — decrements health again (to -1) and invokes `startBossDeath` a
second time, restarting the scripted death sequence. -/
theorem boss_dying_damage_reentry :
    bossOnLastHit.bossState = BossState.DYING ∧
    bossOnLastHit.bossHealth = 0 ∧
    bossOnLastHit.deathStarts = 1 ∧
    bossDyingLater.bossState = BossState.DYING ∧
    bossDoubleDeath.bossHealth = -1 ∧
    bossDoubleDeath.deathStarts = 2 ∧
    bossDoubleDeath.bossState = BossState.DYING := by
  have h1 : bossOnLastHit =
      { bossFightStart with
        bossHealth := 0, bossPhase := 3, bossState := .DYING,
        invincibleTimer := 300, deathStarts := 1 } := by
    norm_num [bossOnLastHit, bossOnLastHitInput, onPlayerAttack, bossTakeDamage,
      transitionToPhase, startBossDeath, bossFightStart]
    decide
  have h2 : bossDyingLater =
      { bossFightStart with
        bossHealth := 0, bossPhase := 3, bossState := .DYING,
        invincibleTimer := -100, deathStarts := 1 } := by
    rw [bossDyingLater, h1]
    norm_num [sceneTickTimers, bossFightStart]
  have h3 : bossDoubleDeath =
      { bossFightStart with
        bossHealth := -1, bossPhase := 3, bossState := .DYING,
        invincibleTimer := 300, deathStarts := 2 } := by
    rw [bossDoubleDeath, h2]
    norm_num [onPlayerAttack, bossTakeDamage, transitionToPhase, startBossDeath,
      bossFightStart]
    decide
  rw [h1, h2, h3]
  norm_num

/-- The flyer mid-swoop about to be hit (health 2 isolates the state slip
from the death path; with the configured `FLYER.HEALTH = 1` every hit kills,
which also never produces the claimed Retreat transition). -/
def flyerSwoopSample : Flyer :=
  { base := { health := 2, maxHealth := 2, damage := 1, x := 100 }
    currentState := .SWOOP
    swoopTarget := some (90, 200) }

/-- The swooping flyer after one surviving hit. -/
def flyerAfterHit : Flyer := Flyer.takeDamage 1 50 flyerSwoopSample

/-- C8: evaluating `Flyer.takeDamage` at a concrete input shows the forced
Retreat never happens: the hit marks the inherited Phaser `state` property
with the `RETREAT` enum value and resets the retreat timer, but the
behaviour field `currentState` — the one the update switch dispatches on —
still holds `SWOOP`, so the next executed update tick (here 300 ms later,
after the 200 ms hurt window has expired) runs the Swoop behaviour, not
Retreat. -/
theorem flyer_damage_retreat_slip :
    flyerAfterHit.base.isAlive = true ∧
    flyerAfterHit.base.health = 1 ∧
    flyerAfterHit.gameObjState = FlyerState.RETREAT.code ∧
    flyerAfterHit.retreatTimer = 1500 ∧
    flyerAfterHit.currentState = FlyerState.SWOOP ∧
    (Flyer.updateBranch 300 flyerAfterHit).1 = some FlyerState.SWOOP := by
  have hhit : flyerAfterHit =
      { base :=
          { health := 1, maxHealth := 2, damage := 1, isHurt := true, hurtTimer := 200,
            x := 100, vx := 300, vy := -100 }
        currentState := .SWOOP
        gameObjState := FlyerState.RETREAT.code
        retreatTimer := 1500
        swoopTarget := some (90, 200) } := by
    norm_num [flyerAfterHit, flyerSwoopSample, Flyer.takeDamage, Enemy.takeDamage,
      Enemy.die, FlyerState.code]
  rw [hhit]
  refine ⟨rfl, rfl, rfl, rfl, rfl, ?_⟩
  norm_num [Flyer.updateBranch, Enemy.updateHurt]

/-- The player at the boss-room spawn with full health (5). -/
def playerStart : Player :=
  { health := 5, x := 150, y := 520, spawnX := 150, spawnY := 520 }

/-- The player after three boss slashes (2 damage each), with the 1000 ms
invulnerability window expiring between hits. -/
def playerAfterThreeSlashes : Player :=
  Player.takeDamage 2 1100 (Player.clearInvincibility (Player.takeDamage 2 1100
    (Player.clearInvincibility (Player.takeDamage 2 1100 playerStart))))

/-- C9 counterexample: the third 2-damage slash at health 1 emits a
`player-damaged` event carrying health -1 — observable health on the event
bus does go below 0 (the death check then treats it as death and the
follow-up event carries the reset health 5). -/
theorem player_damaged_event_goes_negative :
    playerAfterThreeSlashes.damagedEvents = [(3, 5), (1, 5), (-1, 5), (5, 5)] ∧
    ((-1 : Int), (5 : Int)) ∈ playerAfterThreeSlashes.damagedEvents := by
  refine ⟨?_, ?_⟩ <;> decide

/-- C9 amended: the player's getter-observable health stays within
(0, maxHealth] across `takeDamage` and `fallDeath` (death resets it to
`maxHealth`), the death check treats any non-positive decremented value
identically to zero (death fires exactly when `health - amount ≤ 0`), and
every `player-damaged` event payload is bounded above by `maxHealth`; the
payload is however the raw decremented value, so it can be negative when the
damage amount exceeds current health (see the counterexample). -/
theorem Player.takeDamage_char (a : Int) (sx : ℚ) (p : Player)
    (hinv : p.invincible = false) :
    (Player.takeDamage a sx p).health =
      (if p.health - a ≤ 0 then p.maxHealth else p.health - a) ∧
    (Player.takeDamage a sx p).diedEvents =
      (if p.health - a ≤ 0 then p.diedEvents + 1 else p.diedEvents) ∧
    (Player.takeDamage a sx p).damagedEvents =
      (if p.health - a ≤ 0 then
        p.damagedEvents ++ [(p.health - a, p.maxHealth)] ++ [(p.maxHealth, p.maxHealth)]
       else p.damagedEvents ++ [(p.health - a, p.maxHealth)]) := by
  simp only [Player.takeDamage, hinv, Bool.false_eq_true, if_false]
  split_ifs with hd <;> simp [Player.die, Player.respawn]

theorem Player.fallDeath_char (p : Player) :
    (Player.fallDeath p).health =
      (if p.health - 1 ≤ 0 then p.maxHealth else p.health - 1) ∧
    (Player.fallDeath p).damagedEvents =
      (if p.health - 1 ≤ 0 then
        p.damagedEvents ++ [(p.health - 1, p.maxHealth)] ++ [(p.maxHealth, p.maxHealth)]
       else p.damagedEvents ++ [(p.health - 1, p.maxHealth)]) := by
  simp only [Player.fallDeath]
  split_ifs with hd <;> simp [Player.die, Player.respawn]

theorem Player.takeDamage_invincible_noop (a : Int) (sx : ℚ) (p : Player)
    (hinv : p.invincible = true) :
    Player.takeDamage a sx p = p := by
  simp [Player.takeDamage, hinv]

theorem player_health_observable_bounds :
    (∀ (p : Player) (a : Int) (sx : ℚ), 0 < p.health → p.health ≤ p.maxHealth →
      0 < p.maxHealth → 0 ≤ a →
      0 < (Player.takeDamage a sx p).health ∧
      (Player.takeDamage a sx p).health ≤ p.maxHealth) ∧
    (∀ (p : Player) (a : Int) (sx : ℚ), p.invincible = false →
      (Player.takeDamage a sx p).health =
        (if p.health - a ≤ 0 then p.maxHealth else p.health - a) ∧
      (Player.takeDamage a sx p).diedEvents =
        (if p.health - a ≤ 0 then p.diedEvents + 1 else p.diedEvents)) ∧
    (∀ (p : Player) (a : Int) (sx : ℚ), p.health ≤ p.maxHealth → 0 ≤ a →
      ∀ ev ∈ (Player.takeDamage a sx p).damagedEvents,
        ev ∈ p.damagedEvents ∨ ev.1 ≤ p.maxHealth) ∧
    (∀ (p : Player), 0 < p.health → p.health ≤ p.maxHealth → 0 < p.maxHealth →
      0 < (Player.fallDeath p).health ∧
      (Player.fallDeath p).health ≤ p.maxHealth ∧
      (∀ ev ∈ (Player.fallDeath p).damagedEvents,
        ev ∈ p.damagedEvents ∨ (0 ≤ ev.1 ∧ ev.1 ≤ p.maxHealth))) := by
  refine ⟨?_, ?_, ?_, ?_⟩
  · intro p a sx h1 h2 h3 h4
    by_cases hinv : p.invincible
    · rw [Player.takeDamage_invincible_noop a sx p hinv]
      exact ⟨h1, h2⟩
    · simp only [Bool.not_eq_true] at hinv
      obtain ⟨hc, -, -⟩ := Player.takeDamage_char a sx p hinv
      rw [hc]
      split_ifs with hd
      · exact ⟨h3, le_refl _⟩
      · constructor <;> omega
  · intro p a sx hinv
    obtain ⟨hc1, hc2, -⟩ := Player.takeDamage_char a sx p hinv
    exact ⟨hc1, hc2⟩
  · intro p a sx h2 h4 ev hev
    by_cases hinv : p.invincible
    · rw [Player.takeDamage_invincible_noop a sx p hinv] at hev
      exact Or.inl hev
    · simp only [Bool.not_eq_true] at hinv
      obtain ⟨-, -, hc3⟩ := Player.takeDamage_char a sx p hinv
      rw [hc3] at hev
      split_ifs at hev with hd
      · simp only [List.append_assoc, List.mem_append, List.mem_singleton] at hev
        rcases hev with hev | hev | hev
        · exact Or.inl hev
        · subst hev
          right
          show p.health - a ≤ p.maxHealth
          omega
        · subst hev
          right
          exact le_refl _
      · simp only [List.mem_append, List.mem_singleton] at hev
        rcases hev with hev | hev
        · exact Or.inl hev
        · subst hev
          right
          show p.health - a ≤ p.maxHealth
          omega
  · intro p h1 h2 h3
    obtain ⟨hc1, hc2⟩ := Player.fallDeath_char p
    refine ⟨?_, ?_, ?_⟩
    · rw [hc1]
      split_ifs <;> omega
    · rw [hc1]
      split_ifs <;> omega
    · intro ev hev
      rw [hc2] at hev
      split_ifs at hev with hd
      · simp only [List.append_assoc, List.mem_append, List.mem_singleton] at hev
        rcases hev with hev | hev | hev
        · exact Or.inl hev
        · subst hev
          right
          refine ⟨?_, ?_⟩
          · show (0 : Int) ≤ p.health - 1
            omega
          · show p.health - 1 ≤ p.maxHealth
            omega
        · subst hev
          right
          exact ⟨le_of_lt h3, le_refl _⟩
      · simp only [List.mem_append, List.mem_singleton] at hev
        rcases hev with hev | hev
        · exact Or.inl hev
        · subst hev
          right
          refine ⟨?_, ?_⟩
          · show (0 : Int) ≤ p.health - 1
            omega
          · show p.health - 1 ≤ p.maxHealth
            omega

/-- Witness for the C9 amended statement: a fresh player hit for 2 keeps
getter health in bounds (5 → 3), the death check characterization holds at
that input, the new event payload is bounded by maxHealth, and a fall death
at full health keeps bounds. -/
theorem player_health_observable_bounds_check :
    (0 < (Player.takeDamage 2 1100 playerStart).health ∧
      (Player.takeDamage 2 1100 playerStart).health ≤ playerStart.maxHealth) ∧
    (Player.takeDamage 2 1100 playerStart).health =
      (if playerStart.health - 2 ≤ 0 then playerStart.maxHealth
       else playerStart.health - 2) ∧
    ((3, 5) ∈ playerStart.damagedEvents ∨ ((3 : Int), (5 : Int)).1 ≤ playerStart.maxHealth) ∧
    (0 < (Player.fallDeath playerStart).health ∧
      (Player.fallDeath playerStart).health ≤ playerStart.maxHealth) := by
  obtain ⟨t1, t2, t3, t4⟩ := player_health_observable_bounds
  refine ⟨t1 playerStart 2 1100 (by decide) (by decide) (by decide) (by decide),
    (t2 playerStart 2 1100 rfl).1,
    t3 playerStart 2 1100 (by decide) (by decide) (3, 5) (by decide),
    ?_, ?_⟩
  · exact (t4 playerStart (by decide) (by decide) (by decide)).1
  · exact (t4 playerStart (by decide) (by decide) (by decide)).2.1

theorem mapGet_mem {T : Type} {name : String} {l : List (Nat × State T)}
    {e : Nat × State T} (h : mapGet name l = some e) : e ∈ l :=
  List.mem_of_find?_eq_some h

theorem mapGet_name {T : Type} {name : String} {l : List (Nat × State T)}
    {e : Nat × State T} (h : mapGet name l = some e) : e.2.name = name := by
  have := List.find?_some h
  simpa using this

/-- C4: `setState(name)` changes state only for a registered name different
from the current one.  On a well-formed machine: an unknown name leaves the
machine (current state, previous state, entity) untouched; the current
state's own name is a full no-op that runs neither `onExit` nor `onEnter`;
any other registered name runs the old state's `onExit`, records the old
state as previous, switches, and runs the new state's `onEnter`. -/
theorem setState_spec {T : Type} (m : StateMachine T) (name : String)
    (hwf : m.wellFormed) :
    (mapGet name m.states = none → m.setState name = m) ∧
    (∀ cid cur, m.currentState = some (cid, cur) → cur.name = name →
      m.setState name = m) ∧
    (∀ cid cur nid st, m.currentState = some (cid, cur) → cur.name ≠ name →
      mapGet name m.states = some (nid, st) →
      m.setState name =
        { m with
          entity := runHook st.onEnter (runHook cur.onExit m.entity)
          previousState := some (cid, cur)
          currentState := some (nid, st) }) := by
  obtain ⟨hnames, hids, hcur⟩ := hwf
  refine ⟨?_, ?_, ?_⟩
  · intro h
    simp [StateMachine.setState, h]
  · intro cid cur hc hn
    have hmem : (cid, cur) ∈ m.states := hcur _ hc
    rcases hfind : mapGet name m.states with _ | e
    · simp [StateMachine.setState, hfind]
    · have he_mem : e ∈ m.states := mapGet_mem hfind
      have he_name : e.2.name = name := mapGet_name hfind
      have heq : e = (cid, cur) :=
        List.inj_on_of_nodup_map hnames he_mem hmem (by simp [he_name, hn])
      subst heq
      simp [StateMachine.setState, hfind, hc]
  · intro cid cur nid st hc hn hfind
    have hmem_cur : (cid, cur) ∈ m.states := hcur _ hc
    have hmem_new : (nid, st) ∈ m.states := mapGet_mem hfind
    have hst_name : st.name = name := mapGet_name hfind
    have hne : cid ≠ nid := by
      intro h
      subst h
      have hpair : (cid, cur) = (cid, st) :=
        List.inj_on_of_nodup_map hids hmem_cur hmem_new rfl
      have : cur = st := congrArg Prod.snd hpair
      exact hn (this ▸ hst_name)
    simp [StateMachine.setState, hfind, hc, hne]

/-- Counter entity: the machine below counts `onEnter` runs of state A, the
`onExit` runs of A, and the `onEnter` runs of state B via weights 1, 100,
10. -/
def smA : State Nat :=
  { name := "A", onEnter := some (fun n => n + 1), onExit := some (fun n => n + 100) }

/-- Second registered state. -/
def smB : State Nat :=
  { name := "B", onEnter := some (fun n => n + 10) }

/-- A machine with states A and B, currently in A (one A-entry recorded:
entity = 1). -/
def machineInA : StateMachine Nat :=
  ((({ entity := 0 } : StateMachine Nat).addState smA).addState smB).setState "A"

/-- Witness for C4: on the concrete two-state machine sitting in A,
`setState "C"` (unknown) and `setState "A"` (re-entry) are exact no-ops —
in particular the A-entry counter stays at 1, so `onEnter` did not re-run —
while `setState "B"` runs A's `onExit` and B's `onEnter` and records A as
previous. -/
theorem setState_spec_check :
    machineInA.entity = 1 ∧
    machineInA.setState "C" = machineInA ∧
    machineInA.setState "A" = machineInA ∧
    machineInA.setState "B" =
      { machineInA with
        entity := 111
        previousState := some (0, smA)
        currentState := some (1, smB) } := by
  have hwf : machineInA.wellFormed := by
    refine ⟨by decide, by decide, ?_⟩
    intro c hc
    have : c = (0, smA) := by
      have h := hc.symm
      injection h
    subst this
    exact List.mem_cons_self _ _
  obtain ⟨t1, t2, t3⟩ := setState_spec machineInA "C" hwf
  obtain ⟨u1, u2, u3⟩ := setState_spec machineInA "A" hwf
  obtain ⟨v1, v2, v3⟩ := setState_spec machineInA "B" hwf
  refine ⟨rfl, t1 rfl, u2 0 smA rfl rfl, ?_⟩
  exact v3 0 smA 1 smB rfl (by decide) rfl

end Shroombound
